import Mathlib

/-!
Shallow embedding of the multi-agent truth verification service
(`src/services/verification-service.ts`) of the TeamNoCapV2 repository.

The service orchestrates four fact-checking agent adapters (Claude,
Fetch.ai, Gemini, Bright Data), a consensus resolver preferring a remote
gateway with a local vote-count fallback, and a correction synthesizer.

Modelling choices:
- Every remote HTTP interaction of one `verifyStatement` call is modelled
  by a `NetworkEnv` record that fixes, for each provider, the outcome the
  service's try/catch observes: either a successfully fetched-and-parsed
  value (`NetOutcome.ok`), or a thrown JavaScript error with its message
  (`NetOutcome.err`, covering network failure, a non-2xx status — the code
  throws `new Error(...)` on `!response.ok` — and JSON/shape parse
  failure). Theorems quantify over all environments, so error cases are
  covered.
- API keys are strings; the code guards each remote path with a JS
  truthiness check `!apiKey`, which for a string means emptiness, modelled
  as `= ""`.
- JS numbers are modelled as ℚ. The only numeric comparisons performed
  (vote fractions k/4 against the 0.6 threshold) are exact in binary
  floating point for the operand k/4 and lie at distance ≥ 0.1 from 0.6,
  so the float/rational distinction never flips a comparison.
- JS `x || d` defaulting on response fields is modelled by `jsOrNum` /
  `jsOrString` (absent, numeric 0, and the empty string are falsy).
- Successfully parsed provider responses are modelled with their ternary
  verdict type where the code's TypeScript annotations promise one; the
  claims under study only concern such well-typed responses.
-/

namespace NoCap

/-- Ternary verdict `"true" | "false" | "inconclusive"` used by agents and
the consensus. -/
inductive Verdict where
  | true
  | false
  | inconclusive
deriving DecidableEq, Fintype, Repr

/-- `VerificationAgent` interface: one agent's opinion. `reasoning` is an
optional field in the source. -/
structure VerificationAgent where
  name : String
  verdict : Verdict
  confidence : ℚ
  reasoning : Option String
deriving DecidableEq, Repr

/-- Consensus label `"verified_true" | "verified_false" | "inconclusive"`
of `VerificationResult.consensus`. -/
inductive Consensus where
  | verified_true
  | verified_false
  | inconclusive
deriving DecidableEq, Repr

/-- The `{verdict, consensusScore}` pair produced by the consensus
resolver (`lavaGatewayConsensus` in the result). -/
structure ConsensusOutcome where
  verdict : Verdict
  consensusScore : ℚ
deriving DecidableEq, Repr

/-- `VerificationResult` interface returned by `verifyStatement`. -/
structure VerificationResult where
  statementId : String
  isFalse : Bool
  consensus : Consensus
  correctInformation : Option String
  agents : List VerificationAgent
  lavaGatewayConsensus : ConsensusOutcome
deriving DecidableEq, Repr

/-- Outcome of one remote interaction as observed by the service's
try/catch: a fetched-and-parsed value, or a thrown error carrying the
message that ends up in `error.message`. -/
inductive NetOutcome (α : Type) where
  | ok (value : α)
  | err (msg : String)
deriving DecidableEq, Repr

/-- Parsed JSON body `{verdict, confidence, reasoning}` that the Claude and
Gemini adapters extract from the model's text response. -/
structure LLMVerdictResponse where
  verdict : Verdict
  confidence : ℚ
  reasoning : Option String
deriving DecidableEq, Repr

/-- Response consumed by the Fetch.ai adapter. Each field is optional and
read with JS `||` defaulting; `verdict := none` covers an absent or falsy
verdict field. -/
structure FetchAIResponse where
  verdict : Option Verdict
  confidence : Option ℚ
  reasoning : Option String
deriving DecidableEq, Repr

/-- Response consumed by the Bright Data adapter: a `results` array that
may be absent; only its presence and length are read by the code, but the
elements are carried so that content-independence is provable rather than
built in. -/
structure BrightDataResponse where
  results : Option (List String)
deriving DecidableEq, Repr

/-- `{verdict, score}` returned by the Lava Gateway consensus endpoint. -/
structure GatewayResponse where
  verdict : Verdict
  score : ℚ
deriving DecidableEq, Repr

/-- Provider credentials consumed by `verification-service.ts` via
`apiConfig` (base URLs and model names do not influence the modelled
control flow). -/
structure ApiConfig where
  anthropicApiKey : String
  fetchAIApiKey : String
  geminiApiKey : String
  brightDataApiKey : String
  lavaGatewayApiKey : String
deriving DecidableEq, Repr

/-- One `verifyStatement` call's view of the outside world: the outcome of
each provider interaction, and the fresh id produced by
`crypto.randomUUID()`. -/
structure NetworkEnv where
  claudeResponse : NetOutcome LLMVerdictResponse
  fetchAIResponse : NetOutcome FetchAIResponse
  geminiResponse : NetOutcome LLMVerdictResponse
  brightDataResponse : NetOutcome BrightDataResponse
  lavaResponse : NetOutcome GatewayResponse
  correctionResponse : NetOutcome String
  freshId : String
deriving DecidableEq, Repr

/-- JS `x || d` on an optional number: `0` (and absence) is falsy. -/
def jsOrNum (x : Option ℚ) (d : ℚ) : ℚ :=
  match x with
  | none => d
  | some v => if v = 0 then d else v

/-- JS `x || d` on an optional string: `""` (and absence) is falsy. -/
def jsOrString (x : Option String) (d : String) : String :=
  match x with
  | none => d
  | some s => if s = "" then d else s

/-- `verifyWithClaude`: key precondition check, then one request whose
parsed `{verdict, confidence, reasoning}` is copied into the result; any
thrown error is caught and mapped to `inconclusive/0/"Error: ..."`. -/
def verifyWithClaude (cfg : ApiConfig) (env : NetworkEnv)
    (statement : String) : VerificationAgent :=
  if cfg.anthropicApiKey = "" then
    { name := "Claude (Anthropic)", verdict := Verdict.inconclusive,
      confidence := 0, reasoning := some "API key not configured" }
  else
    match env.claudeResponse with
    | NetOutcome.ok result =>
        { name := "Claude (Anthropic)", verdict := result.verdict,
          confidence := result.confidence, reasoning := result.reasoning }
    | NetOutcome.err msg =>
        { name := "Claude (Anthropic)", verdict := Verdict.inconclusive,
          confidence := 0, reasoning := some ("Error: " ++ msg) }

/-- `verifyWithFetchAI`: key precondition check, then one request whose
response fields are read directly with JS `||` defaults
(`data.verdict || "inconclusive"`, `data.confidence || 0.8`,
`data.reasoning || "Fetch.ai agent verification"`); errors map to
`inconclusive/0/"Error: ..."`. -/
def verifyWithFetchAI (cfg : ApiConfig) (env : NetworkEnv)
    (statement : String) : VerificationAgent :=
  if cfg.fetchAIApiKey = "" then
    { name := "Fetch.ai", verdict := Verdict.inconclusive,
      confidence := 0, reasoning := some "API key not configured" }
  else
    match env.fetchAIResponse with
    | NetOutcome.ok data =>
        { name := "Fetch.ai", verdict := data.verdict.getD Verdict.inconclusive,
          confidence := jsOrNum data.confidence 0.8,
          reasoning := some (jsOrString data.reasoning "Fetch.ai agent verification") }
    | NetOutcome.err msg =>
        { name := "Fetch.ai", verdict := Verdict.inconclusive,
          confidence := 0, reasoning := some ("Error: " ++ msg) }

/-- `verifyWithGemini`: same shape as the Claude adapter, reading the JSON
parsed out of `candidates[0].content.parts[0].text`. -/
def verifyWithGemini (cfg : ApiConfig) (env : NetworkEnv)
    (statement : String) : VerificationAgent :=
  if cfg.geminiApiKey = "" then
    { name := "Gemini (Google)", verdict := Verdict.inconclusive,
      confidence := 0, reasoning := some "API key not configured" }
  else
    match env.geminiResponse with
    | NetOutcome.ok result =>
        { name := "Gemini (Google)", verdict := result.verdict,
          confidence := result.confidence, reasoning := result.reasoning }
    | NetOutcome.err msg =>
        { name := "Gemini (Google)", verdict := Verdict.inconclusive,
          confidence := 0, reasoning := some ("Error: " ++ msg) }

/-- `verifyWithBrightData`: key precondition check, then one search request;
`hasResults = data.results && data.results.length > 0` decides verdict
`"true"`/0.75 versus `inconclusive`/0.3; errors map to
`inconclusive/0/"Error: ..."`. -/
def verifyWithBrightData (cfg : ApiConfig) (env : NetworkEnv)
    (statement : String) : VerificationAgent :=
  if cfg.brightDataApiKey = "" then
    { name := "Bright Data", verdict := Verdict.inconclusive,
      confidence := 0, reasoning := some "API key not configured" }
  else
    match env.brightDataResponse with
    | NetOutcome.ok data =>
        let hasResults : Bool :=
          match data.results with
          | some rs => rs.length > 0
          | none => Bool.false
        { name := "Bright Data",
          verdict := if hasResults then Verdict.true else Verdict.inconclusive,
          confidence := if hasResults then 0.75 else 0.3,
          reasoning := some (if hasResults then "Found supporting web sources"
            else "No conclusive web sources found") }
    | NetOutcome.err msg =>
        { name := "Bright Data", verdict := Verdict.inconclusive,
          confidence := 0, reasoning := some ("Error: " ++ msg) }

/-- `calculateLocalConsensus`: vote counting over the agent list with a
0.6 threshold on the `false` then `true` bucket fractions; otherwise
`inconclusive` with the largest bucket's fraction as score. -/
def calculateLocalConsensus (agents : List VerificationAgent) : ConsensusOutcome :=
  let falseCount := (agents.filter (fun a => a.verdict == Verdict.false)).length
  let trueCount := (agents.filter (fun a => a.verdict == Verdict.true)).length
  let inconclusiveCount :=
    (agents.filter (fun a => a.verdict == Verdict.inconclusive)).length
  let totalVotes := agents.length
  let consensusThreshold : ℚ := 0.6
  if (falseCount : ℚ) / (totalVotes : ℚ) ≥ consensusThreshold then
    { verdict := Verdict.false, consensusScore := (falseCount : ℚ) / (totalVotes : ℚ) }
  else if (trueCount : ℚ) / (totalVotes : ℚ) ≥ consensusThreshold then
    { verdict := Verdict.true, consensusScore := (trueCount : ℚ) / (totalVotes : ℚ) }
  else
    { verdict := Verdict.inconclusive,
      consensusScore :=
        (max (max falseCount trueCount) inconclusiveCount : ℚ) / (totalVotes : ℚ) }

/-- `getLavaGatewayConsensus`: local fallback when the gateway key is
absent; otherwise the gateway's `{verdict, score}` is used verbatim on
success, and any thrown error falls back to the local algorithm. -/
def getLavaGatewayConsensus (cfg : ApiConfig) (env : NetworkEnv)
    (agents : List VerificationAgent) : ConsensusOutcome :=
  if cfg.lavaGatewayApiKey = "" then
    calculateLocalConsensus agents
  else
    match env.lavaResponse with
    | NetOutcome.ok data =>
        { verdict := data.verdict, consensusScore := data.score }
    | NetOutcome.err _ => calculateLocalConsensus agents

/-- The predicate of the source's `.filter((r): r is string => !!r)` step
composed with `.map((a) => a.reasoning)`: keeps a reasoning only when
present and truthy (non-empty). -/
def truthyReasoning (a : VerificationAgent) : Option String :=
  match a.reasoning with
  | some r => if r = "" then none else some r
  | none => none

/-- `generateCorrectInformation`: collect truthy reasonings of false-voting
agents; generic message when none; else a synthesis request when the
Claude key is configured whose `ok` text is returned, every other path
(no key, thrown error, non-2xx response — the `if (response.ok)` guard
simply falls through) returning `"Correction: " + falseReasonings[0]`. -/
def generateCorrectInformation (cfg : ApiConfig) (env : NetworkEnv)
    (falseStatement : String) (agents : List VerificationAgent) : String :=
  let falseReasonings :=
    (agents.filter (fun a => a.verdict == Verdict.false)).filterMap truthyReasoning
  match falseReasonings with
  | [] =>
      "The statement has been determined to be false, but specific corrections are unavailable."
  | r0 :: _ =>
      if cfg.anthropicApiKey = "" then
        "Correction: " ++ r0
      else
        match env.correctionResponse with
        | NetOutcome.ok text => text
        | NetOutcome.err _ => "Correction: " ++ r0

/-- `verifyStatement`: fresh id, fan-out to the four adapters joined in
fixed order (`Promise.all` preserves input order), consensus resolution,
derivation of `isFalse`/`consensus`, conditional correction synthesis, and
assembly of the result. -/
def verifyStatement (cfg : ApiConfig) (env : NetworkEnv)
    (statement : String) : VerificationResult :=
  let statementId := env.freshId
  let claudeResult := verifyWithClaude cfg env statement
  let fetchAIResult := verifyWithFetchAI cfg env statement
  let geminiResult := verifyWithGemini cfg env statement
  let brightDataResult := verifyWithBrightData cfg env statement
  let agents : List VerificationAgent :=
    [claudeResult, fetchAIResult, geminiResult, brightDataResult]
  let lavaGatewayConsensus := getLavaGatewayConsensus cfg env agents
  let isFalse := lavaGatewayConsensus.verdict == Verdict.false
  let consensus :=
    if lavaGatewayConsensus.verdict == Verdict.true then Consensus.verified_true
    else if lavaGatewayConsensus.verdict == Verdict.false then Consensus.verified_false
    else Consensus.inconclusive
  let correctInformation :=
    if isFalse then some (generateCorrectInformation cfg env statement agents)
    else none
  { statementId := statementId, isFalse := isFalse, consensus := consensus,
    correctInformation := correctInformation, agents := agents,
    lavaGatewayConsensus := lavaGatewayConsensus }

/-! ### Spec-side definitions and helper lemmas -/

/-- Local consensus as a function of the verdict list alone. Helper used to
show `calculateLocalConsensus` ignores every agent field except `verdict`. -/
def consensusOfVerdicts (vs : List Verdict) : ConsensusOutcome :=
  let falseCount := (vs.filter (fun v => v == Verdict.false)).length
  let trueCount := (vs.filter (fun v => v == Verdict.true)).length
  let inconclusiveCount := (vs.filter (fun v => v == Verdict.inconclusive)).length
  let totalVotes := vs.length
  let consensusThreshold : ℚ := 0.6
  if (falseCount : ℚ) / (totalVotes : ℚ) ≥ consensusThreshold then
    { verdict := Verdict.false, consensusScore := (falseCount : ℚ) / (totalVotes : ℚ) }
  else if (trueCount : ℚ) / (totalVotes : ℚ) ≥ consensusThreshold then
    { verdict := Verdict.true, consensusScore := (trueCount : ℚ) / (totalVotes : ℚ) }
  else
    { verdict := Verdict.inconclusive,
      consensusScore := (max (max falseCount trueCount) inconclusiveCount : ℚ) / (totalVotes : ℚ) }

/-- Definition following the words of the specification for the local
consensus over four verdicts: `false` with score `falseCount/4` when
`falseCount/4 ≥ 0.6`, else `true` with score `trueCount/4` when
`trueCount/4 ≥ 0.6`, else `inconclusive` with the largest bucket's
fraction as score. Stated independently of `calculateLocalConsensus` to be
compared against it. -/
def localConsensusSpec (v1 v2 v3 v4 : Verdict) : ConsensusOutcome :=
  let vs : List Verdict := [v1, v2, v3, v4]
  let falseCount := (vs.filter (fun v => v == Verdict.false)).length
  let trueCount := (vs.filter (fun v => v == Verdict.true)).length
  let inconclusiveCount := (vs.filter (fun v => v == Verdict.inconclusive)).length
  if (falseCount : ℚ) / 4 ≥ 0.6 then
    { verdict := Verdict.false, consensusScore := (falseCount : ℚ) / 4 }
  else if (trueCount : ℚ) / 4 ≥ 0.6 then
    { verdict := Verdict.true, consensusScore := (trueCount : ℚ) / 4 }
  else
    { verdict := Verdict.inconclusive,
      consensusScore := (max (max falseCount trueCount) inconclusiveCount : ℚ) / 4 }

lemma calculateLocalConsensus_eq_ofVerdicts (agents : List VerificationAgent) :
    calculateLocalConsensus agents =
      consensusOfVerdicts (agents.map VerificationAgent.verdict) := by
  unfold calculateLocalConsensus consensusOfVerdicts
  simp [List.filter_map, Function.comp_def]

lemma verifyWithClaude_name (cfg : ApiConfig) (env : NetworkEnv) (statement : String) :
    (verifyWithClaude cfg env statement).name = "Claude (Anthropic)" := by
  unfold verifyWithClaude
  split
  · rfl
  · split <;> rfl

lemma verifyWithFetchAI_name (cfg : ApiConfig) (env : NetworkEnv) (statement : String) :
    (verifyWithFetchAI cfg env statement).name = "Fetch.ai" := by
  unfold verifyWithFetchAI
  split
  · rfl
  · split <;> rfl

lemma verifyWithGemini_name (cfg : ApiConfig) (env : NetworkEnv) (statement : String) :
    (verifyWithGemini cfg env statement).name = "Gemini (Google)" := by
  unfold verifyWithGemini
  split
  · rfl
  · split <;> rfl

lemma verifyWithBrightData_name (cfg : ApiConfig) (env : NetworkEnv) (statement : String) :
    (verifyWithBrightData cfg env statement).name = "Bright Data" := by
  unfold verifyWithBrightData
  split
  · rfl
  · split <;> rfl

/-! ### Claim theorems -/

/-- Claim C1: for every input string, every credential configuration and
every network environment — including those in which each remote
interaction of the Agent Adapters, the Consensus Resolver and the
Correction Synthesizer throws — `verifyStatement` returns a complete
`VerificationResult` (all four agent entries present, the fresh statement
id assigned); errors only ever appear as data inside the result, never as
a failure of `verifyStatement` itself. -/
theorem verifyStatement_total_C1 (cfg : ApiConfig) (env : NetworkEnv)
    (statement : String) :
    (verifyStatement cfg env statement).agents.length = 4 ∧
    (verifyStatement cfg env statement).statementId = env.freshId := by
  exact ⟨rfl, rfl⟩

/-- Claim C2: for every array of four agent verdicts (names, confidences
and reasonings arbitrary), the local consensus algorithm returns verdict
`false` with score `falseCount/4` when `falseCount/4 ≥ 0.6`, else verdict
`true` with score `trueCount/4` when `trueCount/4 ≥ 0.6`, else verdict
`inconclusive` with score `max(falseCount, trueCount, inconclusiveCount)/4`
— the largest bucket's score even though the verdict is inconclusive. -/
theorem calculateLocalConsensus_matches_C2 (a1 a2 a3 a4 : VerificationAgent) :
    calculateLocalConsensus [a1, a2, a3, a4] =
      localConsensusSpec a1.verdict a2.verdict a3.verdict a4.verdict := by
  rw [calculateLocalConsensus_eq_ofVerdicts]
  unfold consensusOfVerdicts localConsensusSpec
  norm_num

/-- Claim C3: the Consensus Resolver falls back to the local algorithm when
the gateway credential is missing or the gateway interaction throws (which
covers network errors, non-success HTTP statuses and unparseable
responses), and on gateway success uses the returned verdict and score
verbatim; being a total function over all environments, it never raises. -/
theorem getLavaGatewayConsensus_C3 (cfg : ApiConfig) (env : NetworkEnv)
    (agents : List VerificationAgent) :
    (cfg.lavaGatewayApiKey = "" →
      getLavaGatewayConsensus cfg env agents = calculateLocalConsensus agents) ∧
    (∀ msg, env.lavaResponse = NetOutcome.err msg →
      getLavaGatewayConsensus cfg env agents = calculateLocalConsensus agents) ∧
    (∀ data, cfg.lavaGatewayApiKey ≠ "" → env.lavaResponse = NetOutcome.ok data →
      getLavaGatewayConsensus cfg env agents =
        { verdict := data.verdict, consensusScore := data.score }) := by
  refine ⟨fun h => by simp [getLavaGatewayConsensus, h], fun msg hm => ?_,
    fun data hk hd => by simp [getLavaGatewayConsensus, hk, hd]⟩
  by_cases h : cfg.lavaGatewayApiKey = "" <;>
    simp [getLavaGatewayConsensus, h, hm]

/-- Witness for C3: with an empty gateway key the resolver computes the
local consensus, and with a key plus a successful gateway response it
returns the gateway's verdict and score verbatim. -/
theorem getLavaGatewayConsensus_C3_witness :
    getLavaGatewayConsensus
        { anthropicApiKey := "", fetchAIApiKey := "", geminiApiKey := "",
          brightDataApiKey := "", lavaGatewayApiKey := "" }
        { claudeResponse := NetOutcome.err "e", fetchAIResponse := NetOutcome.err "e",
          geminiResponse := NetOutcome.err "e", brightDataResponse := NetOutcome.err "e",
          lavaResponse := NetOutcome.err "e", correctionResponse := NetOutcome.err "e",
          freshId := "id" } [] = calculateLocalConsensus [] ∧
    getLavaGatewayConsensus
        { anthropicApiKey := "k", fetchAIApiKey := "k", geminiApiKey := "k",
          brightDataApiKey := "k", lavaGatewayApiKey := "k" }
        { claudeResponse := NetOutcome.err "e", fetchAIResponse := NetOutcome.err "e",
          geminiResponse := NetOutcome.err "e", brightDataResponse := NetOutcome.err "e",
          lavaResponse := NetOutcome.ok { verdict := Verdict.false, score := 9/10 },
          correctionResponse := NetOutcome.err "e", freshId := "id" } [] =
      { verdict := Verdict.false, consensusScore := 9/10 } := by
  constructor
  · exact (getLavaGatewayConsensus_C3
      { anthropicApiKey := "", fetchAIApiKey := "", geminiApiKey := "",
        brightDataApiKey := "", lavaGatewayApiKey := "" }
      { claudeResponse := NetOutcome.err "e", fetchAIResponse := NetOutcome.err "e",
        geminiResponse := NetOutcome.err "e", brightDataResponse := NetOutcome.err "e",
        lavaResponse := NetOutcome.err "e", correctionResponse := NetOutcome.err "e",
        freshId := "id" } []).1 rfl
  · exact (getLavaGatewayConsensus_C3
      { anthropicApiKey := "k", fetchAIApiKey := "k", geminiApiKey := "k",
        brightDataApiKey := "k", lavaGatewayApiKey := "k" }
      { claudeResponse := NetOutcome.err "e", fetchAIResponse := NetOutcome.err "e",
        geminiResponse := NetOutcome.err "e", brightDataResponse := NetOutcome.err "e",
        lavaResponse := NetOutcome.ok { verdict := Verdict.false, score := 9/10 },
        correctionResponse := NetOutcome.err "e", freshId := "id" } []).2.2
      { verdict := Verdict.false, score := 9/10 } (by decide) rfl

/-- Claim C6: the `agents` array of every result is exactly the four
adapter outputs joined in fixed provider order, and their names are always
`[Claude (Anthropic), Fetch.ai, Gemini (Google), Bright Data]` — the
embedding of `Promise.all` keeps input order, not completion order. -/
theorem verifyStatement_agent_order_C6 (cfg : ApiConfig) (env : NetworkEnv)
    (statement : String) :
    (verifyStatement cfg env statement).agents =
      [verifyWithClaude cfg env statement, verifyWithFetchAI cfg env statement,
        verifyWithGemini cfg env statement, verifyWithBrightData cfg env statement] ∧
    (verifyStatement cfg env statement).agents.map VerificationAgent.name =
      ["Claude (Anthropic)", "Fetch.ai", "Gemini (Google)", "Bright Data"] := by
  refine ⟨rfl, ?_⟩
  show ([verifyWithClaude cfg env statement, verifyWithFetchAI cfg env statement,
    verifyWithGemini cfg env statement, verifyWithBrightData cfg env statement]).map
      VerificationAgent.name = _
  simp [verifyWithClaude_name, verifyWithFetchAI_name, verifyWithGemini_name,
    verifyWithBrightData_name]

/-- Claim C10: whenever the local consensus over four agents is decisive
(`false` or `true`), the score is the agreeing-vote fraction and is at
least the 0.6 threshold — hence at least 0.75, since at least 3 of the 4
votes must agree; and the score always lies in `[0, 1]`. -/
theorem localConsensus_invariants_C10 (a1 a2 a3 a4 : VerificationAgent) :
    ((calculateLocalConsensus [a1, a2, a3, a4]).verdict = Verdict.false →
      (calculateLocalConsensus [a1, a2, a3, a4]).consensusScore =
        ((([a1, a2, a3, a4] : List VerificationAgent).filter
          (fun a => a.verdict == Verdict.false)).length : ℚ) / 4 ∧
      (calculateLocalConsensus [a1, a2, a3, a4]).consensusScore ≥ 0.6 ∧
      (calculateLocalConsensus [a1, a2, a3, a4]).consensusScore ≥ 0.75) ∧
    ((calculateLocalConsensus [a1, a2, a3, a4]).verdict = Verdict.true →
      (calculateLocalConsensus [a1, a2, a3, a4]).consensusScore =
        ((([a1, a2, a3, a4] : List VerificationAgent).filter
          (fun a => a.verdict == Verdict.true)).length : ℚ) / 4 ∧
      (calculateLocalConsensus [a1, a2, a3, a4]).consensusScore ≥ 0.6 ∧
      (calculateLocalConsensus [a1, a2, a3, a4]).consensusScore ≥ 0.75) ∧
    (0 ≤ (calculateLocalConsensus [a1, a2, a3, a4]).consensusScore ∧
      (calculateLocalConsensus [a1, a2, a3, a4]).consensusScore ≤ 1) := by
  have hf4 : (([a1, a2, a3, a4] : List VerificationAgent).filter
      (fun a => a.verdict == Verdict.false)).length ≤ 4 := by
    simpa using
      List.length_filter_le (fun a => a.verdict == Verdict.false) [a1, a2, a3, a4]
  have ht4 : (([a1, a2, a3, a4] : List VerificationAgent).filter
      (fun a => a.verdict == Verdict.true)).length ≤ 4 := by
    simpa using
      List.length_filter_le (fun a => a.verdict == Verdict.true) [a1, a2, a3, a4]
  have hi4 : (([a1, a2, a3, a4] : List VerificationAgent).filter
      (fun a => a.verdict == Verdict.inconclusive)).length ≤ 4 := by
    simpa using
      List.length_filter_le (fun a => a.verdict == Verdict.inconclusive) [a1, a2, a3, a4]
  set fc := (([a1, a2, a3, a4] : List VerificationAgent).filter
      (fun a => a.verdict == Verdict.false)).length with hfc
  set tc := (([a1, a2, a3, a4] : List VerificationAgent).filter
      (fun a => a.verdict == Verdict.true)).length with htc
  set ic := (([a1, a2, a3, a4] : List VerificationAgent).filter
      (fun a => a.verdict == Verdict.inconclusive)).length with hic
  simp only [calculateLocalConsensus, ← hfc, ← htc, ← hic, List.length_cons,
    List.length_nil, Nat.cast_ofNat]
  norm_num
  split_ifs with h1 h2
  · have h3 : 3 ≤ fc := by
      by_contra hlt
      push_neg at hlt
      interval_cases fc <;> norm_num at h1
    have h3q : (3 : ℚ) ≤ (fc : ℚ) := by exact_mod_cast h3
    have h4q : (fc : ℚ) ≤ 4 := by exact_mod_cast hf4
    exact ⟨fun _ => ⟨rfl, by linarith, by linarith⟩, fun hv => by simp at hv,
      by positivity, by linarith⟩
  · have h3 : 3 ≤ tc := by
      by_contra hlt
      push_neg at hlt
      interval_cases tc <;> norm_num at h2
    have h3q : (3 : ℚ) ≤ (tc : ℚ) := by exact_mod_cast h3
    have h4q : (tc : ℚ) ≤ 4 := by exact_mod_cast ht4
    exact ⟨fun hv => by simp at hv, fun _ => ⟨rfl, by linarith, by linarith⟩,
      by positivity, by linarith⟩
  · have hfq : (fc : ℚ) ≤ 4 := by exact_mod_cast hf4
    have htq : (tc : ℚ) ≤ 4 := by exact_mod_cast ht4
    have hiq : (ic : ℚ) ≤ 4 := by exact_mod_cast hi4
    have hmax : (max (max (fc : ℚ) (tc : ℚ)) (ic : ℚ)) ≤ 4 :=
      max_le (max_le hfq htq) hiq
    have hmax0 : (0 : ℚ) ≤ max (max (fc : ℚ) (tc : ℚ)) (ic : ℚ) := by positivity
    exact ⟨fun hv => by simp at hv, fun hv => by simp at hv, by positivity, by linarith⟩

/-- Witness for C10: with three `false` votes and one `inconclusive` vote
the decisive-`false` branch applies and yields score `3/4`; with four
`true` votes the decisive-`true` branch applies and yields score `1`. -/
theorem localConsensus_invariants_C10_witness :
    (calculateLocalConsensus
        [{ name := "a", verdict := Verdict.false, confidence := 1, reasoning := none },
         { name := "b", verdict := Verdict.false, confidence := 1, reasoning := none },
         { name := "c", verdict := Verdict.false, confidence := 1, reasoning := none },
         { name := "d", verdict := Verdict.inconclusive, confidence := 0,
           reasoning := none }]).consensusScore = 3 / 4 ∧
    (calculateLocalConsensus
        [{ name := "a", verdict := Verdict.true, confidence := 1, reasoning := none },
         { name := "b", verdict := Verdict.true, confidence := 1, reasoning := none },
         { name := "c", verdict := Verdict.true, confidence := 1, reasoning := none },
         { name := "d", verdict := Verdict.true, confidence := 1,
           reasoning := none }]).consensusScore = 1 := by
  constructor
  · have h := (localConsensus_invariants_C10
      { name := "a", verdict := Verdict.false, confidence := 1, reasoning := none }
      { name := "b", verdict := Verdict.false, confidence := 1, reasoning := none }
      { name := "c", verdict := Verdict.false, confidence := 1, reasoning := none }
      { name := "d", verdict := Verdict.inconclusive, confidence := 0,
        reasoning := none }).1
    have hv := h (by simp [calculateLocalConsensus]; norm_num)
    simpa using hv.1
  · have h := (localConsensus_invariants_C10
      { name := "a", verdict := Verdict.true, confidence := 1, reasoning := none }
      { name := "b", verdict := Verdict.true, confidence := 1, reasoning := none }
      { name := "c", verdict := Verdict.true, confidence := 1, reasoning := none }
      { name := "d", verdict := Verdict.true, confidence := 1, reasoning := none }).2.1
    have hv := h (by simp [calculateLocalConsensus]; norm_num)
    simpa using hv.1

/-- Claim C4: with zero provider credentials configured, `verifyStatement`
returns — for every environment, no network interaction being consulted —
a result whose four agents all read `inconclusive/0/"API key not
configured"`, whose consensus is `inconclusive` with score `4/4 = 1`, and
whose `correctInformation` is absent. -/
theorem verifyStatement_no_credentials_C4 (cfg : ApiConfig) (env : NetworkEnv)
    (statement : String)
    (hA : cfg.anthropicApiKey = "") (hF : cfg.fetchAIApiKey = "")
    (hG : cfg.geminiApiKey = "") (hB : cfg.brightDataApiKey = "")
    (hL : cfg.lavaGatewayApiKey = "") :
    verifyStatement cfg env statement =
      { statementId := env.freshId, isFalse := Bool.false,
        consensus := Consensus.inconclusive, correctInformation := none,
        agents :=
          [{ name := "Claude (Anthropic)", verdict := Verdict.inconclusive,
             confidence := 0, reasoning := some "API key not configured" },
           { name := "Fetch.ai", verdict := Verdict.inconclusive,
             confidence := 0, reasoning := some "API key not configured" },
           { name := "Gemini (Google)", verdict := Verdict.inconclusive,
             confidence := 0, reasoning := some "API key not configured" },
           { name := "Bright Data", verdict := Verdict.inconclusive,
             confidence := 0, reasoning := some "API key not configured" }],
        lavaGatewayConsensus :=
          { verdict := Verdict.inconclusive, consensusScore := 1 } } := by
  simp [verifyStatement, verifyWithClaude, verifyWithFetchAI, verifyWithGemini,
    verifyWithBrightData, getLavaGatewayConsensus, calculateLocalConsensus,
    hA, hF, hG, hB, hL]
  norm_num
  decide

/-- Witness for C4: at the all-empty configuration and a concrete
environment, the no-credentials result is produced. -/
theorem verifyStatement_no_credentials_C4_witness :
    verifyStatement
      { anthropicApiKey := "", fetchAIApiKey := "", geminiApiKey := "",
        brightDataApiKey := "", lavaGatewayApiKey := "" }
      { claudeResponse := NetOutcome.err "e", fetchAIResponse := NetOutcome.err "e",
        geminiResponse := NetOutcome.err "e", brightDataResponse := NetOutcome.err "e",
        lavaResponse := NetOutcome.err "e", correctionResponse := NetOutcome.err "e",
        freshId := "id-1" } "The Earth is flat" =
      { statementId := "id-1", isFalse := Bool.false,
        consensus := Consensus.inconclusive, correctInformation := none,
        agents :=
          [{ name := "Claude (Anthropic)", verdict := Verdict.inconclusive,
             confidence := 0, reasoning := some "API key not configured" },
           { name := "Fetch.ai", verdict := Verdict.inconclusive,
             confidence := 0, reasoning := some "API key not configured" },
           { name := "Gemini (Google)", verdict := Verdict.inconclusive,
             confidence := 0, reasoning := some "API key not configured" },
           { name := "Bright Data", verdict := Verdict.inconclusive,
             confidence := 0, reasoning := some "API key not configured" }],
        lavaGatewayConsensus :=
          { verdict := Verdict.inconclusive, consensusScore := 1 } } := by
  exact verifyStatement_no_credentials_C4
    { anthropicApiKey := "", fetchAIApiKey := "", geminiApiKey := "",
      brightDataApiKey := "", lavaGatewayApiKey := "" }
    { claudeResponse := NetOutcome.err "e", fetchAIResponse := NetOutcome.err "e",
      geminiResponse := NetOutcome.err "e", brightDataResponse := NetOutcome.err "e",
      lavaResponse := NetOutcome.err "e", correctionResponse := NetOutcome.err "e",
      freshId := "id-1" } "The Earth is flat" rfl rfl rfl rfl rfl

/-- Claim C5: in every result of `verifyStatement`, `correctInformation`
is present exactly when `isFalse` holds, `isFalse` holds exactly when the
consensus verdict is `false`, and the consensus label is `verified_false`
exactly when `isFalse` holds — so a `verified_true` or `inconclusive`
result never carries `correctInformation`. -/
theorem verifyStatement_correction_gating_C5 (cfg : ApiConfig) (env : NetworkEnv)
    (statement : String) :
    ((verifyStatement cfg env statement).correctInformation.isSome =
      (verifyStatement cfg env statement).isFalse) ∧
    ((verifyStatement cfg env statement).isFalse =
      ((verifyStatement cfg env statement).lavaGatewayConsensus.verdict ==
        Verdict.false)) ∧
    (((verifyStatement cfg env statement).consensus == Consensus.verified_false) =
      (verifyStatement cfg env statement).isFalse) := by
  rcases hv : (getLavaGatewayConsensus cfg env
      [verifyWithClaude cfg env statement, verifyWithFetchAI cfg env statement,
        verifyWithGemini cfg env statement,
        verifyWithBrightData cfg env statement]).verdict <;>
    simp [verifyStatement, hv]

/-- Claim C7: when the Bright Data key is configured and the search
interaction succeeds with a `results` array, the adapter returns verdict
`true` with confidence 0.75 when at least one result is present and
verdict `inconclusive` with confidence 0.3 when there are zero results;
the right-hand side depends only on the number of results, so the
response's content is never consulted. -/
theorem verifyWithBrightData_C7 (cfg : ApiConfig) (env : NetworkEnv)
    (statement : String) (rs : List String)
    (hk : cfg.brightDataApiKey ≠ "")
    (hresp : env.brightDataResponse = NetOutcome.ok { results := some rs }) :
    verifyWithBrightData cfg env statement =
      (if 0 < rs.length then
        { name := "Bright Data", verdict := Verdict.true, confidence := 0.75,
          reasoning := some "Found supporting web sources" }
      else
        { name := "Bright Data", verdict := Verdict.inconclusive, confidence := 0.3,
          reasoning := some "No conclusive web sources found" }) := by
  by_cases h : 0 < rs.length <;> simp [verifyWithBrightData, hk, hresp, h]

/-- Witness for C7: with a configured key and one search result, the
Bright Data entry is `true`/0.75 with the fixed supporting-sources
reasoning. -/
theorem verifyWithBrightData_C7_witness :
    verifyWithBrightData
      { anthropicApiKey := "k", fetchAIApiKey := "k", geminiApiKey := "k",
        brightDataApiKey := "k", lavaGatewayApiKey := "k" }
      { claudeResponse := NetOutcome.err "e", fetchAIResponse := NetOutcome.err "e",
        geminiResponse := NetOutcome.err "e",
        brightDataResponse := NetOutcome.ok { results := some ["src"] },
        lavaResponse := NetOutcome.err "e", correctionResponse := NetOutcome.err "e",
        freshId := "id" } "s" =
      { name := "Bright Data", verdict := Verdict.true, confidence := 0.75,
        reasoning := some "Found supporting web sources" } := by
  have h := verifyWithBrightData_C7
    { anthropicApiKey := "k", fetchAIApiKey := "k", geminiApiKey := "k",
      brightDataApiKey := "k", lavaGatewayApiKey := "k" }
    { claudeResponse := NetOutcome.err "e", fetchAIResponse := NetOutcome.err "e",
      geminiResponse := NetOutcome.err "e",
      brightDataResponse := NetOutcome.ok { results := some ["src"] },
      lavaResponse := NetOutcome.err "e", correctionResponse := NetOutcome.err "e",
      freshId := "id" } "s" ["src"] (by decide) rfl
  simpa using h

/-- Counterexample to claim C8 as stated: the Fetch.ai response supplies a
confidence field — the value 0 — yet the adapter's returned confidence is
0.8, not the supplied 0, because the source reads the field with JS `||`
defaulting, which also fires on the falsy number 0. -/
theorem verifyWithFetchAI_C8_counterexample :
    (verifyWithFetchAI
      { anthropicApiKey := "k", fetchAIApiKey := "k", geminiApiKey := "k",
        brightDataApiKey := "k", lavaGatewayApiKey := "k" }
      { claudeResponse := NetOutcome.err "e",
        fetchAIResponse := NetOutcome.ok
          { verdict := some Verdict.true, confidence := some 0, reasoning := some "r" },
        geminiResponse := NetOutcome.err "e", brightDataResponse := NetOutcome.err "e",
        lavaResponse := NetOutcome.err "e", correctionResponse := NetOutcome.err "e",
        freshId := "id" } "s").confidence = 0.8 ∧ (0.8 : ℚ) ≠ 0 := by
  constructor
  · rfl
  · norm_num

/-- Claim C8 as amended: on a successful Fetch.ai response the verdict is
the response's verdict when supplied (defaulting to `inconclusive` when
absent); the confidence is the response's confidence when supplied and
nonzero, and defaults to 0.8 when the field is absent or supplied as the
falsy value 0; the reasoning is the response's reasoning when supplied
and non-empty, and defaults to the fixed string when absent or empty. -/
theorem verifyWithFetchAI_C8 (cfg : ApiConfig) (env : NetworkEnv)
    (statement : String) (v : Option Verdict) (c : Option ℚ) (r : Option String)
    (hk : cfg.fetchAIApiKey ≠ "")
    (hresp : env.fetchAIResponse = NetOutcome.ok
      { verdict := v, confidence := c, reasoning := r }) :
    (∀ vv, v = some vv → (verifyWithFetchAI cfg env statement).verdict = vv) ∧
    (v = none → (verifyWithFetchAI cfg env statement).verdict = Verdict.inconclusive) ∧
    (∀ cv, c = some cv → cv ≠ 0 →
      (verifyWithFetchAI cfg env statement).confidence = cv) ∧
    ((c = none ∨ c = some 0) → (verifyWithFetchAI cfg env statement).confidence = 0.8) ∧
    (∀ rv, r = some rv → rv ≠ "" →
      (verifyWithFetchAI cfg env statement).reasoning = some rv) ∧
    ((r = none ∨ r = some "") → (verifyWithFetchAI cfg env statement).reasoning =
      some "Fetch.ai agent verification") := by
  have hb : verifyWithFetchAI cfg env statement =
      { name := "Fetch.ai", verdict := v.getD Verdict.inconclusive,
        confidence := jsOrNum c 0.8,
        reasoning := some (jsOrString r "Fetch.ai agent verification") } := by
    simp [verifyWithFetchAI, hk, hresp]
  refine ⟨fun vv hvv => ?_, fun hvn => ?_, fun cv hcv hcv0 => ?_, fun hc0 => ?_,
    fun rv hrv hrv0 => ?_, fun hr0 => ?_⟩
  · subst hvv; simp [hb]
  · subst hvn; simp [hb]
  · subst hcv; simp [hb, jsOrNum, hcv0]
  · rcases hc0 with h | h <;> subst h <;> simp [hb, jsOrNum]
  · subst hrv; simp [hb, jsOrString, hrv0]
  · rcases hr0 with h | h <;> subst h <;> simp [hb, jsOrString]

/-- Witness for the amended C8: with a configured key and a response
supplying verdict `true`, confidence 1 and reasoning `"because"`, all
three supplied values pass through. -/
theorem verifyWithFetchAI_C8_witness :
    (verifyWithFetchAI
      { anthropicApiKey := "k", fetchAIApiKey := "k", geminiApiKey := "k",
        brightDataApiKey := "k", lavaGatewayApiKey := "k" }
      { claudeResponse := NetOutcome.err "e",
        fetchAIResponse := NetOutcome.ok
          { verdict := some Verdict.true, confidence := some 1,
            reasoning := some "because" },
        geminiResponse := NetOutcome.err "e", brightDataResponse := NetOutcome.err "e",
        lavaResponse := NetOutcome.err "e", correctionResponse := NetOutcome.err "e",
        freshId := "id" } "s").verdict = Verdict.true ∧
    (verifyWithFetchAI
      { anthropicApiKey := "k", fetchAIApiKey := "k", geminiApiKey := "k",
        brightDataApiKey := "k", lavaGatewayApiKey := "k" }
      { claudeResponse := NetOutcome.err "e",
        fetchAIResponse := NetOutcome.ok
          { verdict := some Verdict.true, confidence := some 1,
            reasoning := some "because" },
        geminiResponse := NetOutcome.err "e", brightDataResponse := NetOutcome.err "e",
        lavaResponse := NetOutcome.err "e", correctionResponse := NetOutcome.err "e",
        freshId := "id" } "s").confidence = 1 ∧
    (verifyWithFetchAI
      { anthropicApiKey := "k", fetchAIApiKey := "k", geminiApiKey := "k",
        brightDataApiKey := "k", lavaGatewayApiKey := "k" }
      { claudeResponse := NetOutcome.err "e",
        fetchAIResponse := NetOutcome.ok
          { verdict := some Verdict.true, confidence := some 1,
            reasoning := some "because" },
        geminiResponse := NetOutcome.err "e", brightDataResponse := NetOutcome.err "e",
        lavaResponse := NetOutcome.err "e", correctionResponse := NetOutcome.err "e",
        freshId := "id" } "s").reasoning = some "because" := by
  obtain ⟨h1, _, h3, _, h5, _⟩ := verifyWithFetchAI_C8
    { anthropicApiKey := "k", fetchAIApiKey := "k", geminiApiKey := "k",
      brightDataApiKey := "k", lavaGatewayApiKey := "k" }
    { claudeResponse := NetOutcome.err "e",
      fetchAIResponse := NetOutcome.ok
        { verdict := some Verdict.true, confidence := some 1,
          reasoning := some "because" },
      geminiResponse := NetOutcome.err "e", brightDataResponse := NetOutcome.err "e",
      lavaResponse := NetOutcome.err "e", correctionResponse := NetOutcome.err "e",
      freshId := "id" } "s" (some Verdict.true) (some 1) (some "because")
    (by decide) rfl
  exact ⟨h1 Verdict.true rfl, h3 1 rfl one_ne_zero, h5 "because" rfl (by decide)⟩

/-- Claim C9: the Correction Synthesizer returns the fixed generic message
when no false-voting agent carries (truthy) reasoning text; otherwise,
when the Claude credential is absent or the synthesis interaction throws,
it returns `"Correction: "` followed by the first collected false-agent
reasoning; being a total function over all environments, it never
raises. -/
theorem generateCorrectInformation_C9 (cfg : ApiConfig) (env : NetworkEnv)
    (falseStatement : String) (agents : List VerificationAgent) :
    ((agents.filter (fun a => a.verdict == Verdict.false)).filterMap
        truthyReasoning = [] →
      generateCorrectInformation cfg env falseStatement agents =
        "The statement has been determined to be false, but specific corrections are unavailable.") ∧
    (∀ r0 rest,
      (agents.filter (fun a => a.verdict == Verdict.false)).filterMap
          truthyReasoning = r0 :: rest →
      (cfg.anthropicApiKey = "" →
        generateCorrectInformation cfg env falseStatement agents =
          "Correction: " ++ r0) ∧
      (∀ msg, env.correctionResponse = NetOutcome.err msg →
        generateCorrectInformation cfg env falseStatement agents =
          "Correction: " ++ r0)) := by
  constructor
  · intro h
    simp [generateCorrectInformation, h]
  · intro r0 rest h
    constructor
    · intro hk
      simp [generateCorrectInformation, h, hk]
    · intro msg hm
      by_cases hk : cfg.anthropicApiKey = "" <;>
        simp [generateCorrectInformation, h, hk, hm]

/-- Witness for C9: with no false-voting agent the generic message is
returned, and with a single false-voting agent whose reasoning is "abc"
and no Claude credential, the literal correction prefix plus that
reasoning is returned. -/
theorem generateCorrectInformation_C9_witness :
    generateCorrectInformation
      { anthropicApiKey := "", fetchAIApiKey := "", geminiApiKey := "",
        brightDataApiKey := "", lavaGatewayApiKey := "" }
      { claudeResponse := NetOutcome.err "e", fetchAIResponse := NetOutcome.err "e",
        geminiResponse := NetOutcome.err "e", brightDataResponse := NetOutcome.err "e",
        lavaResponse := NetOutcome.err "e", correctionResponse := NetOutcome.err "e",
        freshId := "id" } "s" [] =
      "The statement has been determined to be false, but specific corrections are unavailable." ∧
    generateCorrectInformation
      { anthropicApiKey := "", fetchAIApiKey := "", geminiApiKey := "",
        brightDataApiKey := "", lavaGatewayApiKey := "" }
      { claudeResponse := NetOutcome.err "e", fetchAIResponse := NetOutcome.err "e",
        geminiResponse := NetOutcome.err "e", brightDataResponse := NetOutcome.err "e",
        lavaResponse := NetOutcome.err "e", correctionResponse := NetOutcome.err "e",
        freshId := "id" } "s"
      [{ name := "a", verdict := Verdict.false, confidence := 1,
         reasoning := some "abc" }] = "Correction: " ++ "abc" := by
  constructor
  · exact (generateCorrectInformation_C9
      { anthropicApiKey := "", fetchAIApiKey := "", geminiApiKey := "",
        brightDataApiKey := "", lavaGatewayApiKey := "" }
      { claudeResponse := NetOutcome.err "e", fetchAIResponse := NetOutcome.err "e",
        geminiResponse := NetOutcome.err "e", brightDataResponse := NetOutcome.err "e",
        lavaResponse := NetOutcome.err "e", correctionResponse := NetOutcome.err "e",
        freshId := "id" } "s" []).1 rfl
  · exact ((generateCorrectInformation_C9
      { anthropicApiKey := "", fetchAIApiKey := "", geminiApiKey := "",
        brightDataApiKey := "", lavaGatewayApiKey := "" }
      { claudeResponse := NetOutcome.err "e", fetchAIResponse := NetOutcome.err "e",
        geminiResponse := NetOutcome.err "e", brightDataResponse := NetOutcome.err "e",
        lavaResponse := NetOutcome.err "e", correctionResponse := NetOutcome.err "e",
        freshId := "id" } "s"
      [{ name := "a", verdict := Verdict.false, confidence := 1,
         reasoning := some "abc" }]).2 "abc" [] (by simp [truthyReasoning])).1 rfl

end NoCap
